import Mathlib

/-!
Verification of the pong3d simulation core (src/src/main.rs).

The repository's own code is the Bevy `setup` system (entity spawning and the
physics configuration: ball restitution 1.05 with `CoefficientCombineRule::Max`,
half-space walls at y = ±40, half-space goal sensors at x = ±60), the
`player_controller` system (key input → paddle velocity components) and the
`update_character_controller` system (accumulating the paddle velocity onto the
kinematic character controller's pending translation).  Collision detection and
restitution response are delegated to the external `bevy_rapier3d` physics
plugin, which is not part of this repository's sources; where a claim depends
on that behaviour it is modelled from the specification (see the doc comments
marked `Modelled from the spec:`).

All scalar quantities are embedded as exact rationals (`ℚ`); the source uses
`f32`, but every claim below is about the exact algebra of the update rules.
-/

/-- Exact-rational stand-in for `bevy`'s `Vec3`. -/
structure Vec3 where
  x : ℚ
  y : ℚ
  z : ℚ
deriving DecidableEq, Repr

instance : Zero Vec3 := ⟨⟨0, 0, 0⟩⟩

instance : Add Vec3 := ⟨fun u v => ⟨u.x + v.x, u.y + v.y, u.z + v.z⟩⟩

instance : Sub Vec3 := ⟨fun u v => ⟨u.x - v.x, u.y - v.y, u.z - v.z⟩⟩

instance : Neg Vec3 := ⟨fun v => ⟨-v.x, -v.y, -v.z⟩⟩

instance : SMul ℚ Vec3 := ⟨fun c v => ⟨c * v.x, c * v.y, c * v.z⟩⟩

/-- Dot product of two vectors. -/
def Vec3.dot (u v : Vec3) : ℚ :=
  u.x * v.x + u.y * v.y + u.z * v.z

/-- Squared Euclidean norm. -/
def Vec3.normSq (v : Vec3) : ℚ :=
  v.dot v

theorem Vec3.zero_def : (0 : Vec3) = ⟨0, 0, 0⟩ := rfl

theorem Vec3.add_def (u v : Vec3) : u + v = ⟨u.x + v.x, u.y + v.y, u.z + v.z⟩ := rfl

theorem Vec3.sub_def (u v : Vec3) : u - v = ⟨u.x - v.x, u.y - v.y, u.z - v.z⟩ := rfl

theorem Vec3.smul_def (c : ℚ) (v : Vec3) : c • v = ⟨c * v.x, c * v.y, c * v.z⟩ := rfl

/-- `Team` enumeration from src/src/main.rs lines 6–11. -/
inductive Team where
  | Left
  | Right
deriving DecidableEq, Repr

/-- `InputYDirection` from src/src/main.rs lines 22–28. -/
inductive InputYDirection where
  | None
  | Up
  | Down
deriving DecidableEq, Repr

/-- `InputXDirection` from src/src/main.rs lines 30–36. -/
inductive InputXDirection where
  | None
  | Left
  | Right
deriving DecidableEq, Repr

/-- The `Paddle` component, src/src/main.rs lines 38–42. -/
structure Paddle where
  team : Team
  velocity : Vec3
deriving DecidableEq, Repr

/-- `Paddle::default()`: default team is Left, velocity is zero
(src/src/main.rs lines 6–11 and 38–42; `Vec3` defaults to zero). -/
def Paddle.default : Paddle :=
  ⟨Team.Left, 0⟩

/-- Pressed state of the eight control keys read by `player_controller`
(src/src/main.rs lines 179–202): W/S/A/D for the Left team and
P/Semicolon/L/Apostrophe for the Right team. -/
structure KeyState where
  w : Bool
  s : Bool
  a : Bool
  d : Bool
  p : Bool
  semicolon : Bool
  l : Bool
  apostrophe : Bool
deriving DecidableEq, Repr

/-- The y-axis branch of the `match paddle.team` in `player_controller`
(src/src/main.rs lines 177–204): `y_dir` starts at its default `None`; the
first `if` checked (W resp. P, i.e. Up) wins over the `else if` (S resp.
Semicolon, i.e. Down). -/
def computeYDir (team : Team) (input : KeyState) : InputYDirection :=
  match team with
  | Team.Left =>
      if input.w then InputYDirection.Up
      else if input.s then InputYDirection.Down
      else InputYDirection.None
  | Team.Right =>
      if input.p then InputYDirection.Up
      else if input.semicolon then InputYDirection.Down
      else InputYDirection.None

/-- The x-axis branch of the `match paddle.team` in `player_controller`
(src/src/main.rs lines 177–204): A resp. L (Left) is checked before D resp.
Apostrophe (Right). -/
def computeXDir (team : Team) (input : KeyState) : InputXDirection :=
  match team with
  | Team.Left =>
      if input.a then InputXDirection.Left
      else if input.d then InputXDirection.Right
      else InputXDirection.None
  | Team.Right =>
      if input.l then InputXDirection.Left
      else if input.apostrophe then InputXDirection.Right
      else InputXDirection.None

/-- The `match y_dir` of `player_controller` (src/src/main.rs lines 206–216):
sets `paddle.velocity.y` to 0.0, 1.0 or -1.0. -/
def applyYDir (v : Vec3) (dir : InputYDirection) : Vec3 :=
  match dir with
  | InputYDirection.None => { v with y := 0 }
  | InputYDirection.Up => { v with y := 1 }
  | InputYDirection.Down => { v with y := -1 }

/-- The `match x_dir` of `player_controller` (src/src/main.rs lines 218–228):
sets `paddle.velocity.x` to 0.0, -1.0 or 1.0. -/
def applyXDir (v : Vec3) (dir : InputXDirection) : Vec3 :=
  match dir with
  | InputXDirection.None => { v with x := 0 }
  | InputXDirection.Left => { v with x := -1 }
  | InputXDirection.Right => { v with x := 1 }

/-- The per-paddle body of the `player_controller` system
(src/src/main.rs lines 172–230): compute both axis intents from the paddle's
team keys, then write the y component and then the x component of the
paddle's velocity. -/
def player_controller (input : KeyState) (paddle : Paddle) : Paddle :=
  let y_dir := computeYDir paddle.team input
  let x_dir := computeXDir paddle.team input
  { paddle with velocity := applyXDir (applyYDir paddle.velocity y_dir) x_dir }

/-- The per-paddle body of the `update_character_controller` system
(src/src/main.rs lines 232–241): the kinematic character controller's pending
`translation` becomes `Some(t + paddle.velocity)` when it was `Some t`, and
`Some(paddle.velocity)` when it was `None`. -/
def update_character_controller (translation : Option Vec3) (paddle : Paddle) :
    Option Vec3 :=
  match translation with
  | some t => some (t + paddle.velocity)
  | none => some paddle.velocity

/-- Iterate `player_controller` over an input sequence, one tick per entry. -/
def runController (paddle : Paddle) : List KeyState → Paddle
  | [] => paddle
  | i :: is => runController (player_controller i paddle) is

/-- `CoefficientCombineRule` of the physics plugin; the ball is configured with
`Max` in `setup` (src/src/main.rs line 117). -/
inductive CoefficientCombineRule where
  | Average
  | Min
  | Multiply
  | Max
deriving DecidableEq, Repr

/-- Modelled from the spec: the combine rule merging the two contacting
bodies' restitution coefficients into one effective value (glossary: "Combine
rule"; §4.3: `combine(e_ball, e_wall)` per the configured rule
Max/Min/Average/Multiply).  The implementation lives in the external physics
plugin, not in src/. -/
def combineRestitution (rule : CoefficientCombineRule) (e₁ e₂ : ℚ) : ℚ :=
  match rule with
  | CoefficientCombineRule.Average => (e₁ + e₂) / 2
  | CoefficientCombineRule.Min => min e₁ e₂
  | CoefficientCombineRule.Multiply => e₁ * e₂
  | CoefficientCombineRule.Max => max e₁ e₂

/-- The ball's restitution coefficient, 1.05 in `setup`
(src/src/main.rs line 116), exact as a rational. -/
def ballRestitution : ℚ := 21 / 20

/-- The ball's restitution combine rule, `Max` in `setup`
(src/src/main.rs line 117). -/
def ballCombineRule : CoefficientCombineRule := CoefficientCombineRule.Max

/-- Modelled from the spec: collision response on a wall contact, performed by
the external physics plugin (not in src/).  Per §4.3, the velocity's component
along the wall's unit `normal` is reflected and scaled by the combined
restitution `e`, and tangential velocity is unchanged: for a unit normal this
is `v - (1 + e) * (v ⬝ n) • n`. -/
def reflectOffWall (normal : Vec3) (e : ℚ) (v : Vec3) : Vec3 :=
  v - ((1 + e) * v.dot normal) • normal

/-- The component of `v` tangential to the unit normal `n`
(what is left after removing the normal component). -/
def tangentialPart (n v : Vec3) : Vec3 :=
  v - (v.dot n) • n

/-- Outward normal of the bottom wall spawned at y = -40
(src/src/main.rs line 127). -/
def wallNormalBottom : Vec3 := ⟨0, 1, 0⟩

/-- Outward normal of the top wall spawned at y = 40
(src/src/main.rs line 133). -/
def wallNormalTop : Vec3 := ⟨0, -1, 0⟩

/-- The effective restitution of a ball–wall contact: the ball's coefficient
1.05 with combine rule `Max` (src/src/main.rs lines 115–118) against a rigid
wall of restitution 1.0. -/
def combinedWallRestitution : ℚ :=
  combineRestitution ballCombineRule ballRestitution 1

/-- The ball's velocity after `n` consecutive wall bounces with no paddle
contact, bouncing alternately off the bottom wall (normal `(0,1,0)`) and the
top wall (normal `(0,-1,0)`), each bounce applying the plugin's wall
reflection at the combined ball–wall restitution. -/
def bounceTrace (v₀ : Vec3) : ℕ → Vec3
  | 0 => v₀
  | n + 1 =>
      reflectOffWall (if n % 2 = 0 then wallNormalBottom else wallNormalTop)
        combinedWallRestitution (bounceTrace v₀ n)

/-- A goal plane per the spec's data model (§3): the code's `Goal` component
(src/src/main.rs lines 50–51) is a bare marker, with the plane position and
normal supplied by the spawned transform and half-space collider
(src/src/main.rs lines 142–152); the team association is per the spec. -/
structure GoalPlane where
  team : Team
  planePosition : Vec3
  planeNormal : Vec3
deriving DecidableEq, Repr

/-- The left goal, spawned at `(-60, 0, 0)` with half-space normal `(1, 1, 0)`
(src/src/main.rs lines 142–146). -/
def goalPlaneLeft : GoalPlane :=
  ⟨Team.Left, ⟨-60, 0, 0⟩, ⟨1, 1, 0⟩⟩

/-- The right goal, spawned at `(60, 0, 0)` with half-space normal `(-1, 1, 0)`
(src/src/main.rs lines 148–152). -/
def goalPlaneRight : GoalPlane :=
  ⟨Team.Right, ⟨60, 0, 0⟩, ⟨-1, 1, 0⟩⟩

/-- Signed distance of the ball center from a goal plane along its outward
normal (§4.4). -/
def goalSignedDist (g : GoalPlane) (ballPos : Vec3) : ℚ :=
  (ballPos - g.planePosition).dot g.planeNormal

/-- Modelled from the spec: the goal-detection step.  No scoring system exists
in src/ (the sensors are spawned but nothing consumes their events; the
detector is flagged TODO, src/src/main.rs line 140); per §4.4 the detector
tests `goalSignedDist ≤ 0` each tick and, edge-triggered on the first crossing
only, emits one scoring event naming the breached team.  The returned pair is
the new "ball is beyond the plane" latch and the events emitted this tick. -/
def goalDetectorStep (g : GoalPlane) (inside : Bool) (ballPos : Vec3) :
    Bool × List Team :=
  if goalSignedDist g ballPos ≤ 0 then
    (true, if inside then [] else [g.team])
  else
    (false, [])

/-- Run the goal detector over a sequence of per-tick ball positions,
collecting all emitted scoring events. -/
def runGoalDetector (g : GoalPlane) (inside : Bool) : List Vec3 → List Team
  | [] => []
  | p :: ps =>
      (goalDetectorStep g inside p).2 ++
        runGoalDetector g (goalDetectorStep g inside p).1 ps

/-- A half-space collider as built in `setup`. -/
structure HalfSpaceCollider where
  outwardNormal : Vec3
deriving DecidableEq, Repr

/-- Modelled from the spec: `Collider::halfspace` is provided by the external
physics plugin (not in src/); it returns `None` for a degenerate outward
normal of zero length (§7: such a normal is a construction-time geometry
error), and a collider otherwise. -/
def halfspaceCollider (n : Vec3) : Option HalfSpaceCollider :=
  if n.normSq = 0 then none else some ⟨n⟩

/-- The configuration-error class of §7 raised for construction-time geometry
errors. -/
inductive ConfigError where
  | degenerateHalfspaceNormal
deriving DecidableEq, Repr

/-- The `.unwrap()` applied to each `Collider::halfspace` result in `setup`
(src/src/main.rs lines 127, 133, 145, 151): a missing collider aborts setup
with a configuration error. -/
def unwrapCollider : Option HalfSpaceCollider → Except ConfigError HalfSpaceCollider
  | some c => Except.ok c
  | none => Except.error ConfigError.degenerateHalfspaceNormal

/-- The half-space–building portion of `setup`, parametrised by the four
outward normals it is given: the bottom wall, the top wall, the left goal and
the right goal, each built with `Collider::halfspace(..).unwrap()` in that
order (src/src/main.rs lines 123–152). -/
def setupHalfspaces (bottom top goalL goalR : Vec3) :
    Except ConfigError (List HalfSpaceCollider) := do
  let w₁ ← unwrapCollider (halfspaceCollider bottom)
  let w₂ ← unwrapCollider (halfspaceCollider top)
  let g₁ ← unwrapCollider (halfspaceCollider goalL)
  let g₂ ← unwrapCollider (halfspaceCollider goalR)
  return [w₁, w₂, g₁, g₂]

/-- Outward normal of the left goal's half-space, `Vect::new(1.0, 1.0, 0.0)`
(src/src/main.rs line 145). -/
def goalNormalLeft : Vec3 := ⟨1, 1, 0⟩

/-- Outward normal of the right goal's half-space, `Vect::new(-1.0, 1.0, 0.0)`
(src/src/main.rs line 151). -/
def goalNormalRight : Vec3 := ⟨-1, 1, 0⟩

/-- `setup`'s half-space construction with the normals actually used by the
source (src/src/main.rs lines 127, 133, 145, 151). -/
def setupColliders : Except ConfigError (List HalfSpaceCollider) :=
  setupHalfspaces wallNormalBottom wallNormalTop goalNormalLeft goalNormalRight

/-- The ball's physical state: spawned with radius 1 scaled by `BALL_SCALE`,
restitution 1.05 and combine rule `Max` (src/src/main.rs lines 104–119). -/
structure BallState where
  position : Vec3
  velocity : Vec3
  radius : ℚ
  restitution : ℚ
  combineRule : CoefficientCombineRule
deriving DecidableEq, Repr

/-- A wall per the spec's data model (§3): a point on the boundary plane, the
inward unit normal, and its restitution (walls are rigid). -/
structure Wall where
  position : Vec3
  normal : Vec3
  restitution : ℚ
deriving DecidableEq, Repr

/-- A paddle's physical body: the `Paddle` component plus the spawn transform
data — position and collision half-extent (`Collider::cuboid(0.5,0.5,0.5)`
under scale `(4, 12, 5)`, src/src/main.rs lines 62, 84, 102) — and its
restitution (paddles are treated as fully rigid, §4.3). -/
structure PaddleBody where
  paddle : Paddle
  position : Vec3
  extent : Vec3
  restitution : ℚ
deriving DecidableEq, Repr

/-- The whole simulation state touched by the collision resolver. -/
structure WorldState where
  ball : BallState
  leftPaddle : PaddleBody
  rightPaddle : PaddleBody
  walls : List Wall
deriving DecidableEq, Repr

/-- Signed distance of a point from a wall plane along the wall normal. -/
def wallSignedDist (w : Wall) (c : Vec3) : ℚ :=
  (c - w.position).dot w.normal

/-- Modelled from the spec: ball-vs-wall contact resolution, performed by the
external physics plugin (not in src/).  Per §4.3, the ball is colliding when
the signed distance of its center from the wall plane is less than its radius,
and on contact the velocity is reflected about the wall normal at the combined
restitution. -/
def resolveWallContact (ball : BallState) (w : Wall) : BallState :=
  if wallSignedDist w ball.position < ball.radius then
    { ball with
        velocity :=
          reflectOffWall w.normal
            (combineRestitution ball.combineRule ball.restitution w.restitution)
            ball.velocity }
  else
    ball

/-- Clamp `v` into the interval `[lo, hi]`. -/
def clampQ (lo hi v : ℚ) : ℚ :=
  max lo (min hi v)

/-- The point of an axis-aligned box (given by center and half-extent) closest
to `p`. -/
def closestPointOnBox (center extent p : Vec3) : Vec3 :=
  ⟨clampQ (center.x - extent.x) (center.x + extent.x) p.x,
   clampQ (center.y - extent.y) (center.y + extent.y) p.y,
   clampQ (center.z - extent.z) (center.z + extent.z) p.z⟩

/-- The outward normal of the paddle-box face closest to the ball center
(§4.3), chosen as the axis of least penetration, ties resolved in x, y, z
order. -/
def paddleFaceNormal (center extent p : Vec3) : Vec3 :=
  let rel := p - center
  let dx := extent.x - |rel.x|
  let dy := extent.y - |rel.y|
  let dz := extent.z - |rel.z|
  if dx ≤ dy ∧ dx ≤ dz then ⟨if rel.x < 0 then -1 else 1, 0, 0⟩
  else if dy ≤ dz then ⟨0, if rel.y < 0 then -1 else 1, 0⟩
  else ⟨0, 0, if rel.z < 0 then -1 else 1⟩

/-- Modelled from the spec: ball-vs-paddle contact resolution, performed by
the external physics plugin (not in src/).  Per §4.3, the ball is colliding
when its sphere overlaps the paddle's axis-aligned box, and on contact the
velocity component along the closest-face normal is reflected at the combined
restitution. -/
def resolvePaddleContact (ball : BallState) (pb : PaddleBody) : BallState :=
  let closest := closestPointOnBox pb.position pb.extent ball.position
  if (ball.position - closest).normSq < ball.radius * ball.radius then
    { ball with
        velocity :=
          reflectOffWall (paddleFaceNormal pb.position pb.extent ball.position)
            (combineRestitution ball.combineRule ball.restitution pb.restitution)
            ball.velocity }
  else
    ball

/-- Modelled from the spec: one tick of collision resolution (performed by the
external physics plugin, not in src/).  Per §4.3 the fixed iteration order is
all wall contacts first, then the left paddle, then the right paddle, each
reflection reading the velocity as modified by the previous contact; the
paddles are kinematic position-based bodies (src/src/main.rs lines 82, 100)
and only the ball's state is written. -/
def resolveCollisions (w : WorldState) : WorldState :=
  let b₁ := w.walls.foldl resolveWallContact w.ball
  let b₂ := resolvePaddleContact b₁ w.leftPaddle
  let b₃ := resolvePaddleContact b₂ w.rightPaddle
  { w with ball := b₃ }

/-- One full simulation tick: the `player_controller` system recomputes both
paddles' velocities from input, ball position integrates its velocity
(`position += velocity * dt`, §4.3, with dt one tick), then the plugin
resolves collisions. -/
def stepWorld (input : KeyState) (w : WorldState) : WorldState :=
  let w₁ :=
    { w with
        leftPaddle := { w.leftPaddle with paddle := player_controller input w.leftPaddle.paddle },
        rightPaddle := { w.rightPaddle with paddle := player_controller input w.rightPaddle.paddle } }
  let w₂ := { w₁ with ball := { w₁.ball with position := w₁.ball.position + w₁.ball.velocity } }
  resolveCollisions w₂


/-! ## Helper lemmas -/

theorem Vec3.ext' {u v : Vec3} (hx : u.x = v.x) (hy : u.y = v.y) (hz : u.z = v.z) :
    u = v := by
  cases u
  cases v
  simp_all

/-- For a unit normal the reflected velocity's normal component is `-e` times
the incoming normal component. -/
theorem reflect_dot_normal (n v : Vec3) (e : ℚ) (hn : n.normSq = 1) :
    (reflectOffWall n e v).dot n = -e * v.dot n := by
  simp only [Vec3.normSq, Vec3.dot, reflectOffWall, Vec3.sub_def, Vec3.smul_def] at hn ⊢
  linear_combination (-(1 + e) * (v.x * n.x + v.y * n.y + v.z * n.z)) * hn

/-- For a unit normal the wall reflection leaves the tangential part of the
velocity unchanged. -/
theorem reflect_tangential (n v : Vec3) (e : ℚ) (hn : n.normSq = 1) :
    tangentialPart n (reflectOffWall n e v) = tangentialPart n v := by
  simp only [Vec3.normSq, Vec3.dot] at hn
  refine Vec3.ext' ?_ ?_ ?_
  · simp only [tangentialPart, reflectOffWall, Vec3.sub_def, Vec3.smul_def, Vec3.dot]
    linear_combination ((1 + e) * (v.x * n.x + v.y * n.y + v.z * n.z) * n.x) * hn
  · simp only [tangentialPart, reflectOffWall, Vec3.sub_def, Vec3.smul_def, Vec3.dot]
    linear_combination ((1 + e) * (v.x * n.x + v.y * n.y + v.z * n.z) * n.y) * hn
  · simp only [tangentialPart, reflectOffWall, Vec3.sub_def, Vec3.smul_def, Vec3.dot]
    linear_combination ((1 + e) * (v.x * n.x + v.y * n.y + v.z * n.z) * n.z) * hn

theorem combinedWallRestitution_eq : combinedWallRestitution = 21 / 20 := by
  show max ((21 : ℚ) / 20) 1 = 21 / 20
  rw [max_eq_left (by norm_num)]

/-- One step of `bounceTrace` negates and scales the y component by 21/20 and
leaves x and z unchanged, whichever of the two walls is hit. -/
theorem bounceTrace_succ (v₀ : Vec3) (n : ℕ) :
    bounceTrace v₀ (n + 1) =
      ⟨(bounceTrace v₀ n).x, -(21 / 20) * (bounceTrace v₀ n).y, (bounceTrace v₀ n).z⟩ := by
  by_cases h : n % 2 = 0 <;>
    simp only [bounceTrace, h, if_true, if_false, reduceIte, combinedWallRestitution_eq,
      reflectOffWall, wallNormalBottom, wallNormalTop, Vec3.sub_def, Vec3.smul_def,
      Vec3.dot] <;>
    refine Vec3.ext' ?_ ?_ ?_ <;> simp <;> ring

/-- Closed form of the bounce sequence for a purely vertical serve. -/
theorem bounceTrace_closed (vy : ℚ) (n : ℕ) :
    bounceTrace ⟨0, vy, 0⟩ n = ⟨0, (-(21 / 20 : ℚ)) ^ n * vy, 0⟩ := by
  induction n with
  | zero => simp [bounceTrace]
  | succ n ih =>
      rw [bounceTrace_succ, ih]
      refine Vec3.ext' ?_ ?_ ?_ <;> simp <;> ring

/-! ## Claim theorems -/

/-- C1: for every wall contact in which the ball's incoming velocity is purely
along the wall's unit normal, with combined restitution `e > 0`, the
post-collision velocity equals exactly `-e` times the incoming velocity along
the normal, and the tangential part of the velocity is unchanged by the
contact. -/
theorem wall_reflection_law (n v : Vec3) (c e : ℚ)
    (hn : n.normSq = 1) (hv : v = c • n) (he : 0 < e) :
    reflectOffWall n e v = (-e) • v ∧
    tangentialPart n (reflectOffWall n e v) = tangentialPart n v := by
  refine ⟨?_, reflect_tangential n v e hn⟩
  subst hv
  simp only [Vec3.normSq, Vec3.dot] at hn
  refine Vec3.ext' ?_ ?_ ?_
  · simp only [reflectOffWall, Vec3.sub_def, Vec3.smul_def, Vec3.dot]
    linear_combination (-(1 + e) * c * n.x) * hn
  · simp only [reflectOffWall, Vec3.sub_def, Vec3.smul_def, Vec3.dot]
    linear_combination (-(1 + e) * c * n.y) * hn
  · simp only [reflectOffWall, Vec3.sub_def, Vec3.smul_def, Vec3.dot]
    linear_combination (-(1 + e) * c * n.z) * hn

theorem wall_reflection_law_witness :
    (Vec3.normSq ⟨0, 1, 0⟩ = 1 ∧ (⟨0, -5, 0⟩ : Vec3) = (-5 : ℚ) • ⟨0, 1, 0⟩ ∧
      (0 : ℚ) < 21 / 20) ∧
    (reflectOffWall ⟨0, 1, 0⟩ (21 / 20) ⟨0, -5, 0⟩ = (-(21 / 20) : ℚ) • ⟨0, -5, 0⟩ ∧
     tangentialPart ⟨0, 1, 0⟩ (reflectOffWall ⟨0, 1, 0⟩ (21 / 20) ⟨0, -5, 0⟩) =
       tangentialPart ⟨0, 1, 0⟩ ⟨0, -5, 0⟩) :=
  ⟨⟨by norm_num [Vec3.normSq, Vec3.dot], by norm_num [Vec3.smul_def], by norm_num⟩,
   wall_reflection_law ⟨0, 1, 0⟩ ⟨0, -5, 0⟩ (-5) (21 / 20)
     (by norm_num [Vec3.normSq, Vec3.dot]) (by norm_num [Vec3.smul_def]) (by norm_num)⟩

/-- C2: with the ball's restitution 1.05 and combine rule `Max` against rigid
walls of restitution 1.0, after `N` consecutive wall bounces (no paddle
contact) of a purely vertical serve the ball's speed is exactly
`initial_speed * 1.05 ^ N`, and the speed grows without bound over a long
rally. -/
theorem bounce_speed_growth (vy : ℚ) (N : ℕ) (h : vy ≠ 0) :
    |(bounceTrace ⟨0, vy, 0⟩ N).y| = |vy| * (21 / 20 : ℚ) ^ N ∧
    ∀ M : ℚ, ∃ K : ℕ, M < |(bounceTrace ⟨0, vy, 0⟩ K).y| := by
  have key : ∀ K : ℕ, |(bounceTrace ⟨0, vy, 0⟩ K).y| = |vy| * (21 / 20 : ℚ) ^ K := by
    intro K
    rw [bounceTrace_closed]
    show |(-(21 / 20 : ℚ)) ^ K * vy| = _
    rw [abs_mul, abs_pow, abs_neg, abs_of_pos (by norm_num : (0 : ℚ) < 21 / 20), mul_comm]
  refine ⟨key N, fun M => ?_⟩
  obtain ⟨K, hK⟩ :=
    pow_unbounded_of_one_lt (M / |vy|) (by norm_num : (1 : ℚ) < 21 / 20)
  have hv : 0 < |vy| := abs_pos.mpr h
  refine ⟨K, ?_⟩
  rw [key K]
  calc M = M / |vy| * |vy| := by field_simp
    _ < (21 / 20 : ℚ) ^ K * |vy| := mul_lt_mul_of_pos_right hK hv
    _ = |vy| * (21 / 20 : ℚ) ^ K := mul_comm _ _

theorem bounce_speed_growth_witness :
    ((-5 : ℚ) ≠ 0) ∧
    (|(bounceTrace ⟨0, -5, 0⟩ 1).y| = |(-5 : ℚ)| * (21 / 20 : ℚ) ^ 1 ∧
     ∀ M : ℚ, ∃ K : ℕ, M < |(bounceTrace ⟨0, -5, 0⟩ K).y|) :=
  ⟨by norm_num, bounce_speed_growth (-5) 1 (by norm_num)⟩

/-- While the ball stays beyond the plane with the latch set, the detector
emits nothing. -/
theorem runGoalDetector_latched (g : GoalPlane) (ps : List Vec3)
    (hps : ∀ p ∈ ps, goalSignedDist g p ≤ 0) :
    runGoalDetector g true ps = [] := by
  induction ps with
  | nil => rfl
  | cons p ps ih =>
      have hp := hps p (List.mem_cons_self p ps)
      simp only [runGoalDetector, goalDetectorStep, if_pos hp]
      exact ih fun q hq => hps q (List.mem_cons_of_mem p hq)

/-- C3: goal detection is edge-triggered — over any single continuous crossing
(ball strictly outside the plane for any number of ticks, then at or beyond
the plane for any positive number of ticks) the detector emits exactly one
scoring event, naming the breached goal's team. -/
theorem goal_edge_trigger (g : GoalPlane) (pre post : List Vec3)
    (hpre : ∀ p ∈ pre, 0 < goalSignedDist g p)
    (hpost : ∀ p ∈ post, goalSignedDist g p ≤ 0)
    (hne : post ≠ []) :
    runGoalDetector g false (pre ++ post) = [g.team] := by
  induction pre with
  | nil =>
      cases post with
      | nil => exact absurd rfl hne
      | cons q qs =>
          have hq := hpost q (List.mem_cons_self q qs)
          simp only [List.nil_append, runGoalDetector, goalDetectorStep, if_pos hq]
          rw [runGoalDetector_latched g qs fun r hr => hpost r (List.mem_cons_of_mem q hr)]
          simp
  | cons p ps ih =>
      have hp := hpre p (List.mem_cons_self p ps)
      simp only [List.cons_append, runGoalDetector, goalDetectorStep,
        if_neg (not_le.mpr hp), List.nil_append]
      exact ih fun r hr => hpre r (List.mem_cons_of_mem p hr)

theorem goal_edge_trigger_witness :
    runGoalDetector goalPlaneLeft false
      ([⟨0, 0, 0⟩] ++ [⟨-61, 0, 0⟩, ⟨-62, 0, 0⟩]) = [Team.Left] :=
  goal_edge_trigger goalPlaneLeft [⟨0, 0, 0⟩] [⟨-61, 0, 0⟩, ⟨-62, 0, 0⟩]
    (by intro p hp; simp only [List.mem_singleton] at hp; subst hp;
        norm_num [goalSignedDist, goalPlaneLeft, Vec3.dot, Vec3.sub_def])
    (by intro p hp; rcases List.mem_pair.mp hp with h | h <;> subst h <;>
        norm_num [goalSignedDist, goalPlaneLeft, Vec3.dot, Vec3.sub_def])
    (by simp)

/-- C4: for every input state and every tick, whenever both the positive and
negative key of one axis are held simultaneously — whatever the other keys
are doing — the first-checked branch wins for that axis and team: Up beats
Down on the y axis (W over S, P over Semicolon) and Left beats Right on the
x axis (A over D, L over Apostrophe); and a winning Up resp. Left intent
deterministically yields velocity component `y = 1` resp. `x = -1` for the
paddle of that team. -/
theorem input_tie_break (input : KeyState) (paddle : Paddle) :
    (input.w = true ∧ input.s = true →
      computeYDir Team.Left input = InputYDirection.Up) ∧
    (input.a = true ∧ input.d = true →
      computeXDir Team.Left input = InputXDirection.Left) ∧
    (input.p = true ∧ input.semicolon = true →
      computeYDir Team.Right input = InputYDirection.Up) ∧
    (input.l = true ∧ input.apostrophe = true →
      computeXDir Team.Right input = InputXDirection.Left) ∧
    (computeYDir paddle.team input = InputYDirection.Up →
      (player_controller input paddle).velocity.y = 1) ∧
    (computeXDir paddle.team input = InputXDirection.Left →
      (player_controller input paddle).velocity.x = -1) := by
  refine ⟨fun h => ?_, fun h => ?_, fun h => ?_, fun h => ?_, fun h => ?_, fun h => ?_⟩
  · simp [computeYDir, h.1]
  · simp [computeXDir, h.1]
  · simp [computeYDir, h.1]
  · simp [computeXDir, h.1]
  · simp only [player_controller, h]
    cases computeXDir paddle.team input <;> simp [applyYDir, applyXDir]
  · simp only [player_controller, h]
    simp [applyXDir]

/-- Both y-axis keys of each team held (W+S, P+Semicolon), both x-axis keys
released. -/
def bothYKeys : KeyState :=
  ⟨true, true, false, false, true, true, false, false⟩

/-- Both x-axis keys of each team held (A+D, L+Apostrophe), both y-axis keys
released. -/
def bothXKeys : KeyState :=
  ⟨false, false, true, true, false, false, true, true⟩

theorem input_tie_break_witness :
    computeYDir Team.Left bothYKeys = InputYDirection.Up ∧
    computeYDir Team.Right bothYKeys = InputYDirection.Up ∧
    computeXDir Team.Left bothXKeys = InputXDirection.Left ∧
    computeXDir Team.Right bothXKeys = InputXDirection.Left ∧
    (player_controller bothYKeys Paddle.default).velocity.y = 1 ∧
    (player_controller bothXKeys Paddle.default).velocity.x = -1 :=
  ⟨(input_tie_break bothYKeys Paddle.default).1 ⟨rfl, rfl⟩,
   (input_tie_break bothYKeys Paddle.default).2.2.1 ⟨rfl, rfl⟩,
   (input_tie_break bothXKeys Paddle.default).2.1 ⟨rfl, rfl⟩,
   (input_tie_break bothXKeys Paddle.default).2.2.2.1 ⟨rfl, rfl⟩,
   (input_tie_break bothYKeys Paddle.default).2.2.2.2.1 rfl,
   (input_tie_break bothXKeys Paddle.default).2.2.2.2.2 rfl⟩

/-- For comparison with `player_controller`, the spec's stated per-tick
control value per y-axis intent in position-delta mode: 0 for Neutral, +1 for
Positive (Up) and -1 for Negative (Down), unscaled. -/
def specAxisValueY : InputYDirection → ℚ
  | InputYDirection.None => 0
  | InputYDirection.Up => 1
  | InputYDirection.Down => -1

/-- For comparison with `player_controller`, the spec's stated per-tick
control value per x-axis intent: 0 for Neutral, +1 for Positive (Right) and
-1 for Negative (Left), unscaled. -/
def specAxisValueX : InputXDirection → ℚ
  | InputXDirection.None => 0
  | InputXDirection.Left => -1
  | InputXDirection.Right => 1

/-- C5: in position-delta control mode, each axis component of every paddle's
control velocity is set each tick to exactly the spec's unscaled intent value
(0 for Neutral, +1 for Up/Right, -1 for Down/Left) — in particular it always
lies in {-1, 0, 1}, with no `PADDLE_SPEED` scaling. -/
theorem control_velocity_unit (input : KeyState) (paddle : Paddle) :
    (player_controller input paddle).velocity.y =
      specAxisValueY (computeYDir paddle.team input) ∧
    (player_controller input paddle).velocity.x =
      specAxisValueX (computeXDir paddle.team input) ∧
    (player_controller input paddle).velocity.y ∈ ({-1, 0, 1} : Set ℚ) ∧
    (player_controller input paddle).velocity.x ∈ ({-1, 0, 1} : Set ℚ) := by
  simp only [player_controller]
  cases hY : computeYDir paddle.team input <;>
    cases hX : computeXDir paddle.team input <;>
    simp [applyYDir, applyXDir, specAxisValueY, specAxisValueX]

/-- C6: the kinematic integrator accumulates: the new pending translation is
the previous pending translation plus the paddle's control velocity, and is
the control velocity alone when no translation was pending. -/
theorem integrator_accumulates (t : Vec3) (paddle : Paddle) :
    update_character_controller (some t) paddle = some (t + paddle.velocity) ∧
    update_character_controller none paddle = some paddle.velocity :=
  ⟨rfl, rfl⟩

/-- C7: collision resolution never mutates a paddle's velocity — after
resolving every ball–wall and ball–paddle contact of a tick both paddles'
stored velocities are unchanged, and over a full tick a paddle's velocity is
exactly what the input-driven `player_controller` wrote. -/
theorem paddle_velocity_immune (input : KeyState) (w : WorldState) :
    (resolveCollisions w).leftPaddle.paddle.velocity =
      w.leftPaddle.paddle.velocity ∧
    (resolveCollisions w).rightPaddle.paddle.velocity =
      w.rightPaddle.paddle.velocity ∧
    (stepWorld input w).leftPaddle.paddle.velocity =
      (player_controller input w.leftPaddle.paddle).velocity ∧
    (stepWorld input w).rightPaddle.paddle.velocity =
      (player_controller input w.rightPaddle.paddle).velocity :=
  ⟨rfl, rfl, rfl, rfl⟩

/-- `player_controller` never writes the z component of a paddle's velocity. -/
theorem player_controller_velocity_z (i : KeyState) (p : Paddle) :
    (player_controller i p).velocity.z = p.velocity.z := by
  simp only [player_controller]
  cases computeYDir p.team i <;> cases computeXDir p.team i <;> rfl

/-- A paddle as spawned in `setup` (src/src/main.rs lines 78–81 and 96–99):
the given team with the default zero velocity. -/
def spawnPaddle (team : Team) : Paddle :=
  ⟨team, 0⟩

/-- Running the controller over any input sequence never changes the z
component of the velocity. -/
theorem runController_velocity_z (inputs : List KeyState) :
    ∀ p : Paddle, (runController p inputs).velocity.z = p.velocity.z := by
  induction inputs with
  | nil => intro p; rfl
  | cons i is ih =>
      intro p
      rw [runController, ih (player_controller i p)]
      exact player_controller_velocity_z i p

/-- C8: for every input sequence, the paddle controller never produces a
velocity component on the z axis: from spawn onward the z component of every
paddle's velocity stays 0. -/
theorem paddle_no_z_drift (inputs : List KeyState) (team : Team) :
    (runController (spawnPaddle team) inputs).velocity.z = 0 := by
  rw [runController_velocity_z]
  rfl

/-- C9: constructing a wall or goal half-space from a degenerate zero-length
normal fails fast during `setup` with a configuration error — the collider is
never produced (the normal is not silently normalized) and the half-space
construction of `setup` aborts with the error; with the normals the source
actually passes, setup produces all four colliders. -/
theorem degenerate_normal_fails_fast (n t gl gr : Vec3) (h : n.normSq = 0) :
    halfspaceCollider n = none ∧
    setupHalfspaces n t gl gr =
      Except.error ConfigError.degenerateHalfspaceNormal ∧
    setupColliders =
      Except.ok [⟨wallNormalBottom⟩, ⟨wallNormalTop⟩, ⟨goalNormalLeft⟩, ⟨goalNormalRight⟩] := by
  have h₁ : halfspaceCollider n = none := by simp [halfspaceCollider, h]
  refine ⟨h₁, ?_, ?_⟩
  · simp only [setupHalfspaces, h₁, unwrapCollider]
    rfl
  · have hb : Vec3.normSq wallNormalBottom ≠ 0 := by
      norm_num [wallNormalBottom, Vec3.normSq, Vec3.dot]
    have ht : Vec3.normSq wallNormalTop ≠ 0 := by
      norm_num [wallNormalTop, Vec3.normSq, Vec3.dot]
    have hgl : Vec3.normSq goalNormalLeft ≠ 0 := by
      norm_num [goalNormalLeft, Vec3.normSq, Vec3.dot]
    have hgr : Vec3.normSq goalNormalRight ≠ 0 := by
      norm_num [goalNormalRight, Vec3.normSq, Vec3.dot]
    simp only [setupColliders, setupHalfspaces, halfspaceCollider, unwrapCollider,
      if_neg hb, if_neg ht, if_neg hgl, if_neg hgr]
    rfl

theorem degenerate_normal_fails_fast_witness :
    Vec3.normSq ⟨0, 0, 0⟩ = 0 ∧
    (halfspaceCollider ⟨0, 0, 0⟩ = none ∧
     setupHalfspaces ⟨0, 0, 0⟩ wallNormalTop goalNormalLeft goalNormalRight =
       Except.error ConfigError.degenerateHalfspaceNormal ∧
     setupColliders =
       Except.ok [⟨wallNormalBottom⟩, ⟨wallNormalTop⟩, ⟨goalNormalLeft⟩, ⟨goalNormalRight⟩]) :=
  ⟨by norm_num [Vec3.normSq, Vec3.dot],
   degenerate_normal_fails_fast ⟨0, 0, 0⟩ wallNormalTop goalNormalLeft goalNormalRight
     (by norm_num [Vec3.normSq, Vec3.dot])⟩

/-- C10: after the kinematic integrator runs, every paddle's pending
translation is defined — both branches of `update_character_controller`
produce `some`. -/
theorem integrator_translation_defined (t : Option Vec3) (paddle : Paddle) :
    (update_character_controller t paddle).isSome = true := by
  cases t <;> rfl
